import Mathlib

/-!
Verification of the llm-mlc plugin (src/llm_mlc.py) against its
natural-language specification.  The Python source is shallowly embedded:
pure computations become Lean functions, stateful scopes (temp_chdir,
SuppressOutput) become explicit state-passing combinators, command handlers
become functions from an environment record to an effect trace plus an
Except result.
-/

namespace LlmMlc

/-! ## String delta computation (streaming mode)

`StreamingChatModule.generate_iter` (src/llm_mlc.py lines 273-282) drives the
external engine one decode step at a time and yields
`get_delta_message(curr_message, new_msg)` for each successive snapshot,
threading `curr_message := new_msg`. -/

/-- Length of the longest common prefix of two character lists. -/
def lcpLen : List Char → List Char → Nat
  | a :: as, b :: bs => if a = b then lcpLen as bs + 1 else 0
  | _, _ => 0

/-- Modelled from the spec: `get_delta_message` lives in the external
`mlc_chat.base` module (imported at src/llm_mlc.py line 262), not in this
repository.  The spec describes it as "a plain string longest-common-prefix
diff" that emits "only the newly-appended suffix since the previous step":
it returns the part of the new snapshot after the longest common prefix with
the previous snapshot. -/
def get_delta_message (curr_message new_message : String) : String :=
  ⟨new_message.data.drop (lcpLen curr_message.data new_message.data)⟩

/-- The loop body of `StreamingChatModule.generate_iter`: given the current
accumulated message and the remaining snapshots the engine will report, yield
one delta per snapshot while threading `curr_message`. -/
def generateIterAux (curr_message : String) : List String → List String
  | [] => []
  | new_msg :: rest => get_delta_message curr_message new_msg :: generateIterAux new_msg rest

/-- Function `generate_iter` (src/llm_mlc.py lines 274-282) over the sequence of
cumulative-text snapshots the engine reports, starting from
`curr_message = ""`. -/
def generate_iter (snapshots : List String) : List String :=
  generateIterAux "" snapshots

theorem lcpLen_append (l s : List Char) : lcpLen l (l ++ s) = l.length := by
  induction l with
  | nil => cases s <;> simp [lcpLen]
  | cons a as ih => simp [lcpLen, ih]

theorem lcpLen_self (l : List Char) : lcpLen l l = l.length := by
  have h := lcpLen_append l []
  simpa using h

theorem get_delta_message_append (prev suffix : String) :
    get_delta_message prev (prev ++ suffix) = suffix := by
  show String.mk ((prev ++ suffix).data.drop (lcpLen prev.data (prev ++ suffix).data)) = suffix
  have hdata : (prev ++ suffix).data = prev.data ++ suffix.data := by
    cases prev; cases suffix; rfl
  rw [hdata, lcpLen_append, List.drop_left]

theorem get_delta_message_refl (prev : String) :
    get_delta_message prev prev = "" := by
  show String.mk (prev.data.drop (lcpLen prev.data prev.data)) = ""
  rw [lcpLen_self, List.drop_length]

theorem generateIterAux_length (c : String) (snaps : List String) :
    (generateIterAux c snaps).length = snaps.length := by
  induction snaps generalizing c with
  | nil => rfl
  | cons s rest ih => simp [generateIterAux, ih]

/-- Each yielded delta after the first is the delta between the two
surrounding snapshots. -/
theorem generateIterAux_succ (c : String) (snaps : List String) (i : Nat)
    (hi : i + 1 < snaps.length) :
    (generateIterAux c snaps).getD (i + 1) "" =
      get_delta_message (snaps.getD i "") (snaps.getD (i + 1) "") := by
  induction snaps generalizing c i with
  | nil => simp at hi
  | cons s rest ih =>
    cases i with
    | zero =>
      cases rest with
      | nil => simp at hi
      | cons r rest' => simp [generateIterAux]
    | succ j =>
      have hj : j + 1 < rest.length := by
        simpa using Nat.lt_of_succ_lt_succ hi
      simpa [generateIterAux] using ih s j hj

/-- C1: for every pair of successive full-text snapshots, if the new one
extends the previous one by appending text then the delta computed by
`get_delta_message` (and yielded at that step by `generate_iter`) is exactly
the appended suffix, and if the new one is identical to the previous one the
computed delta is the empty string. -/
theorem delta_is_appended_suffix (prev suffix : String) (snaps : List String) (i : Nat) :
    get_delta_message prev (prev ++ suffix) = suffix ∧
    get_delta_message prev prev = "" ∧
    (i + 1 < snaps.length → snaps.getD (i + 1) "" = snaps.getD i "" ++ suffix →
      (generate_iter snaps).getD (i + 1) "" = suffix) ∧
    (i + 1 < snaps.length → snaps.getD (i + 1) "" = snaps.getD i "" →
      (generate_iter snaps).getD (i + 1) "" = "") := by
  refine ⟨get_delta_message_append prev suffix, get_delta_message_refl prev, ?_, ?_⟩
  · intro hi hext
    rw [generate_iter, generateIterAux_succ "" snaps i hi, hext]
    exact get_delta_message_append _ _
  · intro hi heq
    rw [generate_iter, generateIterAux_succ "" snaps i hi, heq]
    exact get_delta_message_refl _

theorem delta_is_appended_suffix_witness :
    get_delta_message "a" ("a" ++ "c") = "c" ∧
    get_delta_message "a" "a" = "" ∧
    (generate_iter ["a", "ac", "ac"]).getD 1 "" = "c" ∧
    (generate_iter ["a", "ac", "ac"]).getD 2 "" = "" :=
  ⟨(delta_is_appended_suffix "a" "c" ["a", "ac", "ac"] 0).1,
   (delta_is_appended_suffix "a" "c" ["a", "ac", "ac"] 0).2.1,
   (delta_is_appended_suffix "a" "c" ["a", "ac", "ac"] 0).2.2.1 (by decide) (by decide),
   (delta_is_appended_suffix "a" "c" ["a", "ac", "ac"] 1).2.2.2 (by decide) (by decide)⟩

/-! ## Model registry (`register_models`, src/llm_mlc.py lines 75-89) -/

/-- A directory child as seen by `models_dir.iterdir()`. -/
structure DirEntry where
  name : String
  isDir : Bool
deriving DecidableEq

/-- A registered model object (`MlcModel(model_id=..., model_path=...)`). -/
structure MlcModelEntry where
  model_id : String
  model_path : String
deriving DecidableEq

/-- The `for child in models_dir.iterdir()` loop body of `register_models`
(src/llm_mlc.py lines 81-89): register one entry per child that is a
directory and is not named `lib`, in iteration order. -/
def registerScan : List DirEntry → (String → String) → List MlcModelEntry
  | [], _ => []
  | child :: rest, pathOf =>
    if child.isDir && child.name != "lib" then
      { model_id := child.name, model_path := pathOf child.name } :: registerScan rest pathOf
    else
      registerScan rest pathOf

/-- Function `register_models` (src/llm_mlc.py lines 75-89).  `modelsDir` is `none`
when `<user_dir>/mlc/dist/prebuilt` does not exist; otherwise it holds the
children of that directory in iteration order.  `pathOf` models
`str(child.absolute())`. -/
def register_models (modelsDir : Option (List DirEntry)) (pathOf : String → String) :
    List MlcModelEntry :=
  match modelsDir with
  | none => []
  | some children => registerScan children pathOf

theorem register_models_eq (children : List DirEntry) (pathOf : String → String) :
    register_models (some children) pathOf =
      (children.filter (fun c => c.isDir && c.name != "lib")).map
        (fun c => { model_id := c.name, model_path := pathOf c.name }) := by
  show registerScan children pathOf = _
  induction children with
  | nil => rfl
  | cons c rest ih =>
    by_cases h : (c.isDir && c.name != "lib") = true
    · rw [registerScan, if_pos h, List.filter_cons, if_pos h, List.map_cons, ih]
    · rw [registerScan, if_neg h, List.filter_cons, if_neg h, ih]

/-- C3: with N subdirectories other than the reserved `lib` folder, exactly N
model entries are registered, each with `model_id` equal to its directory
name; a missing models root registers nothing; and the scan is a pure
function of the tree, so re-running it on the same tree yields the same
entries. -/
theorem register_models_entries (children : List DirEntry) (pathOf : String → String) :
    (register_models (some children) pathOf).map (fun m => m.model_id) =
      (children.filter (fun c => c.isDir && c.name != "lib")).map (fun c => c.name) ∧
    (register_models (some children) pathOf).length =
      (children.filter (fun c => c.isDir && c.name != "lib")).length ∧
    register_models none pathOf = [] ∧
    register_models (some children) pathOf = register_models (some children) pathOf := by
  refine ⟨?_, ?_, rfl, rfl⟩
  · rw [register_models_eq, List.map_map]
    rfl
  · rw [register_models_eq, List.length_map]

/-! ## Conversation model and `MlcModel.execute` configuration
(src/llm_mlc.py lines 259-334) -/

/-- A prompt object: `prompt.prompt` is the text, `prompt.system` the
optional system prompt. -/
structure Prompt where
  prompt : String
  system : Option String
deriving DecidableEq

/-- One prior response in the conversation: `prev_response.prompt` and
`prev_response.text()`. -/
structure PrevResponse where
  prompt : Prompt
  text : String
deriving DecidableEq

/-- The host tool's conversation object, carrying `conversation.responses`. -/
structure Conversation where
  responses : List PrevResponse
deriving DecidableEq

/-- Python truthiness of an optional string (`if x:` is false for `None`
and for the empty string). -/
def pyTruthy : Option String → Bool
  | none => false
  | some s => s != ""

/-- The body of the history loop for the system prompt
(src/llm_mlc.py lines 292-294): `if prev_response.prompt.system:
system_prompt = prev_response.prompt.system`. -/
def sysStep (acc : Option String) (r : PrevResponse) : Option String :=
  match r.prompt.system with
  | some s => if s = "" then acc else some s
  | none => acc

/-- The body of the history loop for messages (src/llm_mlc.py lines
295-300): `messages.extend([["USER", ...], ["ASSISTANT", ...]])`. -/
def msgStep (acc : List (String × String)) (r : PrevResponse) : List (String × String) :=
  acc ++ [("USER", r.prompt.prompt), ("ASSISTANT", r.text)]

/-- The `messages` list built by the history loop of `MlcModel.execute`
(src/llm_mlc.py lines 289-300). -/
def historyMessages (resps : List PrevResponse) : List (String × String) :=
  resps.foldl msgStep []

/-- The spec's description of the message list, stated independently of the
loop: a strictly alternating `["USER", prompt]`, `["ASSISTANT", response]`
pair per history entry, in history order. -/
def specAlternatingMessages : List PrevResponse → List (String × String)
  | [] => []
  | r :: rest => ("USER", r.prompt.prompt) :: ("ASSISTANT", r.text) :: specAlternatingMessages rest

/-- The `ConvConfig(**config_kwargs)` record assembled by
`MlcModel.execute`: which of the `messages`, `offset` and `system` keys are
present, and their values. -/
structure ConvConfig where
  messages : Option (List (String × String))
  offset : Option Nat
  system : Option String
deriving DecidableEq

/-- Assembly of `config_kwargs` in `MlcModel.execute` (src/llm_mlc.py lines
285-313): populate `messages`/`offset` from a truthy conversation whose
message list is non-empty, track the last truthy system prompt of the
history, and let a truthy `prompt.system` override it. -/
def execConvConfig (conversation : Option Conversation) (p : Prompt) : ConvConfig :=
  let histSystem : Option String :=
    match conversation with
    | some conv => conv.responses.foldl sysStep none
    | none => none
  let msgs : List (String × String) :=
    match conversation with
    | some conv => historyMessages conv.responses
    | none => []
  let system_prompt : Option String :=
    match p.system with
    | some s => if s = "" then histSystem else some s
    | none => histSystem
  { messages := if msgs.isEmpty then none else some msgs,
    offset := if msgs.isEmpty then none else some msgs.length,
    system := system_prompt }

/-- The `MlcModel.Options` pydantic model (src/llm_mlc.py lines 221-252).
Floats are modelled as rationals; the pydantic validators (`ge`/`le`/`gt`)
appear as hypotheses where a claim relies on them. -/
structure Options where
  temperature : Option Rat
  top_p : Option Rat
  repetition_penalty : Option Rat
  max_gen_len : Option Int
deriving DecidableEq

/-- Python `a or b` on an optional integer: `None` and `0` are falsy. -/
def pyOrInt (a : Option Int) (b : Int) : Int :=
  match a with
  | none => b
  | some v => if v = 0 then b else v

/-- The `ChatConfig(**chat_config_kwargs)` record (src/llm_mlc.py lines
315-328): `max_gen_len`, the `ConvConfig`, and each sampling option only
when the caller set it. -/
structure ChatConfig where
  max_gen_len : Int
  conv_config : ConvConfig
  temperature : Option Rat
  top_p : Option Rat
  repetition_penalty : Option Rat
deriving DecidableEq

/-- Lines 315-328 of src/llm_mlc.py: build the `ChatConfig` passed to
`reset_chat`. -/
def buildChatConfig (opts : Options) (conversation : Option Conversation) (p : Prompt) :
    ChatConfig :=
  { max_gen_len := pyOrInt opts.max_gen_len 512,
    conv_config := execConvConfig conversation p,
    temperature := opts.temperature,
    top_p := opts.top_p,
    repetition_penalty := opts.repetition_penalty }

theorem foldl_sysStep_untouched (l : List PrevResponse) (acc : Option String)
    (h : ∀ r ∈ l, pyTruthy r.prompt.system = false) :
    l.foldl sysStep acc = acc := by
  induction l generalizing acc with
  | nil => rfl
  | cons r rest ih =>
    have hr : pyTruthy r.prompt.system = false := h r (List.mem_cons_self r rest)
    have hstep : sysStep acc r = acc := by
      cases hsys : r.prompt.system with
      | none => simp [sysStep, hsys]
      | some s =>
        rw [hsys] at hr
        simp only [pyTruthy, bne_eq_false_iff_eq] at hr
        simp [sysStep, hsys, hr]
    rw [List.foldl_cons, hstep]
    exact ih acc (fun r' hr' => h r' (List.mem_cons_of_mem r hr'))

/-- C2: the effective system prompt passed in the engine configuration is
the most recent one set in the conversation history, and an explicit system
prompt on the current call overrides it.  Position `j` of the claim is the
position of `r` in `l1 ++ r :: l2`, with `r0 ∈ l1` an earlier set system
prompt (position `i < j`) and every later entry (`l2`) unset. -/
theorem effective_system_prompt_most_recent (l1 l2 : List PrevResponse)
    (r r0 : PrevResponse) (s : String) (p : Prompt)
    (_hr0mem : r0 ∈ l1) (_hr0set : pyTruthy r0.prompt.system = true)
    (hrsys : r.prompt.system = some s) (hs : s ≠ "")
    (hafter : ∀ r' ∈ l2, pyTruthy r'.prompt.system = false) :
    (pyTruthy p.system = false →
      (execConvConfig (some ⟨l1 ++ r :: l2⟩) p).system = some s) ∧
    (∀ t, p.system = some t → t ≠ "" →
      (execConvConfig (some ⟨l1 ++ r :: l2⟩) p).system = some t) := by
  have hist : (l1 ++ r :: l2).foldl sysStep none = some s := by
    rw [List.foldl_append, List.foldl_cons]
    have hstep : sysStep (l1.foldl sysStep none) r = some s := by
      simp [sysStep, hrsys, hs]
    rw [hstep]
    exact foldl_sysStep_untouched l2 (some s) hafter
  constructor
  · intro hp
    show (match p.system with
          | some s => if s = "" then (l1 ++ r :: l2).foldl sysStep none else some s
          | none => (l1 ++ r :: l2).foldl sysStep none) = some s
    cases hpsys : p.system with
    | none => exact hist
    | some t =>
      rw [hpsys] at hp
      simp only [pyTruthy, bne_eq_false_iff_eq] at hp
      show (if t = "" then (l1 ++ r :: l2).foldl sysStep none else some t) = some s
      rw [if_pos hp]
      exact hist
  · intro t hpsys ht
    show (match p.system with
          | some s => if s = "" then (l1 ++ r :: l2).foldl sysStep none else some s
          | none => (l1 ++ r :: l2).foldl sysStep none) = some t
    rw [hpsys]
    exact if_neg ht

theorem effective_system_prompt_most_recent_witness :
    (execConvConfig
        (some ⟨[⟨⟨"q1", some "sys1"⟩, "a1"⟩, ⟨⟨"q2", some "sys2"⟩, "a2"⟩,
                ⟨⟨"q3", none⟩, "a3"⟩]⟩)
        ⟨"q4", none⟩).system = some "sys2" ∧
    (execConvConfig
        (some ⟨[⟨⟨"q1", some "sys1"⟩, "a1"⟩, ⟨⟨"q2", some "sys2"⟩, "a2"⟩,
                ⟨⟨"q3", none⟩, "a3"⟩]⟩)
        ⟨"q4", some "sysX"⟩).system = some "sysX" :=
  ⟨(effective_system_prompt_most_recent
      [⟨⟨"q1", some "sys1"⟩, "a1"⟩] [⟨⟨"q3", none⟩, "a3"⟩]
      ⟨⟨"q2", some "sys2"⟩, "a2"⟩ ⟨⟨"q1", some "sys1"⟩, "a1"⟩ "sys2" ⟨"q4", none⟩
      (by decide) (by decide) rfl (by decide) (by decide)).1 (by decide),
   (effective_system_prompt_most_recent
      [⟨⟨"q1", some "sys1"⟩, "a1"⟩] [⟨⟨"q3", none⟩, "a3"⟩]
      ⟨⟨"q2", some "sys2"⟩, "a2"⟩ ⟨⟨"q1", some "sys1"⟩, "a1"⟩ "sys2" ⟨"q4", some "sysX"⟩
      (by decide) (by decide) rfl (by decide) (by decide)).2
      "sysX" rfl (by decide)⟩

theorem foldl_msgStep_eq (l : List PrevResponse) (acc : List (String × String)) :
    l.foldl msgStep acc = acc ++ specAlternatingMessages l := by
  induction l generalizing acc with
  | nil => simp [specAlternatingMessages]
  | cons r rest ih =>
    rw [List.foldl_cons, ih]
    simp [msgStep, specAlternatingMessages]

theorem specAlternatingMessages_length (l : List PrevResponse) :
    (specAlternatingMessages l).length = 2 * l.length := by
  induction l with
  | nil => rfl
  | cons r rest ih =>
    simp only [specAlternatingMessages, List.length_cons, ih]
    omega

/-- C4: for a history of k prior responses the message list has exactly 2k
entries, strictly alternating `["USER", prompt]` then
`["ASSISTANT", response]` in history order, with the `offset` key set to 2k;
with an empty history (or no conversation) neither key is placed in the
configuration. -/
theorem history_messages_alternating (conv : Conversation) (p : Prompt) :
    historyMessages conv.responses = specAlternatingMessages conv.responses ∧
    (historyMessages conv.responses).length = 2 * conv.responses.length ∧
    (conv.responses ≠ [] →
      (execConvConfig (some conv) p).messages = some (historyMessages conv.responses) ∧
      (execConvConfig (some conv) p).offset = some (2 * conv.responses.length)) ∧
    (conv.responses = [] →
      (execConvConfig (some conv) p).messages = none ∧
      (execConvConfig (some conv) p).offset = none) ∧
    (execConvConfig none p).messages = none ∧
    (execConvConfig none p).offset = none := by
  have heq : historyMessages conv.responses = specAlternatingMessages conv.responses := by
    have h := foldl_msgStep_eq conv.responses []
    simpa [historyMessages] using h
  have hlen : (historyMessages conv.responses).length = 2 * conv.responses.length := by
    rw [heq, specAlternatingMessages_length]
  refine ⟨heq, hlen, ?_, ?_, rfl, rfl⟩
  · intro hne
    have hmsgs_ne : historyMessages conv.responses ≠ [] := by
      intro hnil
      rw [hnil] at hlen
      cases hresps : conv.responses with
      | nil => exact hne hresps
      | cons a t => rw [hresps] at hlen; simp at hlen
    have hempty : (historyMessages conv.responses).isEmpty = false := by
      cases hm : historyMessages conv.responses with
      | nil => exact absurd hm hmsgs_ne
      | cons a t => rfl
    constructor
    · show (if (historyMessages conv.responses).isEmpty then none
            else some (historyMessages conv.responses)) = some (historyMessages conv.responses)
      simp [hempty]
    · show (if (historyMessages conv.responses).isEmpty then none
            else some (historyMessages conv.responses).length) = some (2 * conv.responses.length)
      simp [hempty, hlen]
  · intro hnil
    have hm : historyMessages conv.responses = [] := by
      rw [hnil]; rfl
    constructor
    · show (if (historyMessages conv.responses).isEmpty then none
            else some (historyMessages conv.responses)) = none
      simp [hm]
    · show (if (historyMessages conv.responses).isEmpty then none
            else some (historyMessages conv.responses).length) = none
      simp [hm]

theorem history_messages_alternating_witness :
    (execConvConfig (some ⟨[⟨⟨"q1", none⟩, "a1"⟩, ⟨⟨"q2", none⟩, "a2"⟩]⟩)
        ⟨"q3", none⟩).messages =
      some [("USER", "q1"), ("ASSISTANT", "a1"), ("USER", "q2"), ("ASSISTANT", "a2")] ∧
    (execConvConfig (some ⟨[⟨⟨"q1", none⟩, "a1"⟩, ⟨⟨"q2", none⟩, "a2"⟩]⟩)
        ⟨"q3", none⟩).offset = some 4 ∧
    (execConvConfig (some ⟨([] : List PrevResponse)⟩) ⟨"q3", none⟩).messages = none ∧
    (execConvConfig (some ⟨([] : List PrevResponse)⟩) ⟨"q3", none⟩).offset = none :=
  ⟨(((history_messages_alternating ⟨[⟨⟨"q1", none⟩, "a1"⟩, ⟨⟨"q2", none⟩, "a2"⟩]⟩
        ⟨"q3", none⟩).2.2.1 (by decide)).1).trans (by decide),
   (((history_messages_alternating ⟨[⟨⟨"q1", none⟩, "a1"⟩, ⟨⟨"q2", none⟩, "a2"⟩]⟩
        ⟨"q3", none⟩).2.2.1 (by decide)).2).trans (by decide),
   ((history_messages_alternating ⟨([] : List PrevResponse)⟩ ⟨"q3", none⟩).2.2.2.1 rfl).1,
   ((history_messages_alternating ⟨([] : List PrevResponse)⟩ ⟨"q3", none⟩).2.2.2.1 rfl).2⟩

/-- C10: when the caller does not set `max_gen_len`, the engine
configuration carries 512; when it is set (pydantic validates it as
strictly positive), the caller's value is carried instead. -/
theorem max_gen_len_default (opts : Options) (conv : Option Conversation) (p : Prompt) :
    (opts.max_gen_len = none → (buildChatConfig opts conv p).max_gen_len = 512) ∧
    (∀ v : Int, opts.max_gen_len = some v → 0 < v →
      (buildChatConfig opts conv p).max_gen_len = v) := by
  constructor
  · intro h
    show pyOrInt opts.max_gen_len 512 = 512
    rw [h]
    rfl
  · intro v hv hpos
    show pyOrInt opts.max_gen_len 512 = v
    rw [hv]
    show (if v = 0 then 512 else v) = v
    rw [if_neg (by omega)]

theorem max_gen_len_default_witness :
    (buildChatConfig ⟨none, none, none, none⟩ none ⟨"q", none⟩).max_gen_len = 512 ∧
    (buildChatConfig ⟨none, none, none, some 100⟩ none ⟨"q", none⟩).max_gen_len = 100 :=
  ⟨(max_gen_len_default ⟨none, none, none, none⟩ none ⟨"q", none⟩).1 rfl,
   (max_gen_len_default ⟨none, none, none, some 100⟩ none ⟨"q", none⟩).2 100 rfl (by decide)⟩

/-! ## Command handlers (src/llm_mlc.py lines 92-215) -/

/-- The recognized short-name table `MODEL_URLS` (src/llm_mlc.py lines
13-17). -/
def MODEL_URLS : List (String × String) :=
  [("Llama-2-7b-chat",
    "https://huggingface.co/mlc-ai/mlc-chat-Llama-2-7b-chat-hf-q4f16_1"),
   ("Llama-2-13b-chat",
    "https://huggingface.co/mlc-ai/mlc-chat-Llama-2-13b-chat-hf-q4f16_1"),
   ("Llama-2-70b-chat",
    "https://huggingface.co/mlc-ai/mlc-chat-Llama-2-70b-chat-hf-q4f16_1")]

/-- Dict lookup `MODEL_URLS.get(name_or_url)` (src/llm_mlc.py line 155). -/
def modelUrlsGet (name : String) : Option String :=
  (MODEL_URLS.find? (fun kv => kv.1 == name)).map (fun kv => kv.2)

/-- The fixed `MLC_INSTALL` message (src/llm_mlc.py lines 19-22). -/
def MLC_INSTALL : String :=
  "You must install mlc_chat first. See https://github.com/simonw/llm-mlc for instructions."

/-- Python `a or b` on an optional string (`None` and `""` are falsy). -/
def pyOrStr (a : Option String) (b : String) : String :=
  match a with
  | none => b
  | some s => if s = "" then b else s

/-- Python `s.startswith(pre)`, evaluated on the character lists. -/
def pyStartsWith (s pre : String) : Bool :=
  pre.data.isPrefixOf s.data

/-- A user-facing command failure: `click.BadParameter` or
`click.ClickException`, with its message. -/
inductive CmdError
  | badParameter (msg : String)
  | clickException (msg : String)
deriving DecidableEq

/-- Externally visible side effects performed by the command handlers. -/
inductive Effect
  | gitClone (url : String) (dest : String)
  | writeAliasesFile (data : List (String × String))
  | promptInstallLfs
  | runGitLfsInstall
deriving DecidableEq

/-- Lookup in the alias file (`aliases.json`): the last binding for a key
wins, matching a Python dict built by repeated assignment. -/
def aliasesGet (m : List (String × String)) (k : String) : Option String :=
  (m.reverse.find? (fun kv => kv.1 == k)).map (fun kv => kv.2)

/-- Dict assignment `aliases_data[alias] = last_bit`
(src/llm_mlc.py line 180). -/
def aliasesSet (m : List (String × String)) (k v : String) : List (String × String) :=
  m ++ [(k, v)]

/-- Python `s.split(sep)` for a one-character separator, on character
lists: always returns at least one (possibly empty) part. -/
def pySplit (sep : Char) : List Char → List (List Char)
  | [] => [[]]
  | c :: rest =>
    match pySplit sep rest with
    | [] => [[]]
    | cur :: parts =>
      if c = sep then [] :: cur :: parts else (c :: cur) :: parts

/-- The expression `url.split("/")[-1]` (src/llm_mlc.py line 166). -/
def lastBit (url : String) : String :=
  ⟨(pySplit '/' url.data).getLastD []⟩

/-- Command `download_model` (src/llm_mlc.py lines 154-181).  Inputs are the
command argument, the `-a` aliases, whether `dist/prebuilt` exists, and the
current contents of `aliases.json` (a missing file behaves as the empty
dict, lines 176-177).  Output is the list of effects performed plus either
the raised error or the final alias-file contents. -/
def download_model (name_or_url : String) (aliases : List String)
    (prebuiltDirExists : Bool) (aliasesFileData : List (String × String)) :
    List Effect × Except CmdError (List (String × String)) :=
  let url := pyOrStr (modelUrlsGet name_or_url) name_or_url
  let aliases' := if (modelUrlsGet name_or_url).isSome then aliases ++ [name_or_url]
                  else aliases
  if ¬ pyStartsWith url "https://" then
    ([], .error (.badParameter "Invalid model name or URL"))
  else if ¬ prebuiltDirExists then
    ([], .error (.clickException "You must run 'llm mlc setup' first"))
  else
    let last_bit := lastBit url
    let cloneEff := Effect.gitClone url ("dist/prebuilt/" ++ last_bit)
    if aliases'.isEmpty then
      ([cloneEff], .ok aliasesFileData)
    else
      let newData := aliases'.foldl (fun d a => aliasesSet d a last_bit) aliasesFileData
      ([cloneEff, Effect.writeAliasesFile newData], .ok newData)

/-- Environment facts observed by the `setup` command
(src/llm_mlc.py lines 98-136). -/
structure SetupEnv where
  gitLfsCommandAvailable : Bool
  gitLfsInstalled : Bool
  userConfirmsInstall : Bool
  distDirExists : Bool
  mlcChatImportable : Bool
deriving DecidableEq

/-- Command `setup` (src/llm_mlc.py lines 98-136): check git-lfs availability,
offer one interactive install prompt, clone the prebuilt binary library if
absent, then check that `mlc_chat` imports. -/
def setup (env : SetupEnv) : List Effect × Except CmdError Unit :=
  if ¬ env.gitLfsCommandAvailable then
    ([], .error (.clickException
      "Git LFS is not installed. You should run 'brew install git-lfs' or similar."))
  else if ¬ env.gitLfsInstalled ∧ ¬ env.userConfirmsInstall then
    ([Effect.promptInstallLfs], .error (.clickException
      "Git LFS is not installed. You should run 'git lfs install'."))
  else
    let effs1 := if ¬ env.gitLfsInstalled then
                   [Effect.promptInstallLfs, Effect.runGitLfsInstall]
                 else []
    let effs2 := effs1 ++
      (if ¬ env.distDirExists then
        [Effect.gitClone "https://github.com/mlc-ai/binary-mlc-llm-libs.git"
          "dist/prebuilt/lib"]
       else [])
    if ¬ env.mlcChatImportable then (effs2, .error (.clickException MLC_INSTALL))
    else (effs2, .ok ())

/-- The import guard and configuration assembly of `MlcModel.execute`
(src/llm_mlc.py lines 259-328): raise the fixed `MLC_INSTALL` message when
`mlc_chat` cannot be imported, otherwise build the `ChatConfig` passed to
`reset_chat`. -/
def execute (mlcChatImportable : Bool) (p : Prompt) (opts : Options)
    (conversation : Option Conversation) : Except CmdError ChatConfig :=
  if ¬ mlcChatImportable then .error (.clickException MLC_INSTALL)
  else .ok (buildChatConfig opts conversation p)

theorem modelUrlsGet_url (name_or_url u : String) (h : modelUrlsGet name_or_url = some u) :
    pyStartsWith u "https://" = true ∧ u ≠ "" := by
  simp only [modelUrlsGet, Option.map_eq_some'] at h
  rcases h with ⟨kv, hfind, hu⟩
  have hmem := List.mem_of_find?_eq_some hfind
  simp only [ MODEL_URLS, List.mem_cons, List.not_mem_nil, or_false] at hmem
  rcases hmem with h1 | h1 | h1 <;> (subst h1; rw [← hu]; exact ⟨by decide, by decide⟩)

theorem download_model_not_badParameter (name_or_url : String) (aliases : List String)
    (pb : Bool) (data : List (String × String))
    (h : pyStartsWith (pyOrStr (modelUrlsGet name_or_url) name_or_url) "https://" = true)
    (msg : String) :
    (download_model name_or_url aliases pb data).2 ≠ .error (.badParameter msg) := by
  simp only [download_model, h]
  repeat' split
  all_goals simp_all

/-- C5: an argument that is neither a key of `MODEL_URLS` nor a string
beginning with `https://` makes `download_model` fail with a
`BadParameter` error before any clone or file write; every recognized short
name and every `https://`-prefixed string passes this validation. -/
theorem download_model_validation (name_or_url : String) (aliases : List String)
    (pb : Bool) (data : List (String × String)) :
    (modelUrlsGet name_or_url = none → pyStartsWith name_or_url "https://" = false →
      download_model name_or_url aliases pb data =
        ([], .error (.badParameter "Invalid model name or URL"))) ∧
    (∀ u, modelUrlsGet name_or_url = some u → ∀ msg,
      (download_model name_or_url aliases pb data).2 ≠ .error (.badParameter msg)) ∧
    (pyStartsWith name_or_url "https://" = true → ∀ msg,
      (download_model name_or_url aliases pb data).2 ≠ .error (.badParameter msg)) := by
  refine ⟨?_, ?_, ?_⟩
  · intro hget hstart
    simp [download_model, pyOrStr, hget, hstart]
  · intro u hget msg
    apply download_model_not_badParameter
    rw [hget]
    show pyStartsWith (if u = "" then name_or_url else u) "https://" = true
    rcases modelUrlsGet_url name_or_url u hget with ⟨hstart, hne⟩
    rw [if_neg hne]
    exact hstart
  · intro hstart msg
    apply download_model_not_badParameter
    cases hget : modelUrlsGet name_or_url with
    | none => exact hstart
    | some u =>
      show pyStartsWith (if u = "" then name_or_url else u) "https://" = true
      rcases modelUrlsGet_url name_or_url u hget with ⟨hstart', hne⟩
      rw [if_neg hne]
      exact hstart'

theorem download_model_validation_witness :
    download_model "not-a-model" [] true [] =
      ([], .error (.badParameter "Invalid model name or URL")) ∧
    (download_model "Llama-2-7b-chat" [] true []).2 ≠
      Except.error (CmdError.badParameter "Invalid model name or URL") ∧
    (download_model "https://example.com/some-model" [] true []).2 ≠
      Except.error (CmdError.badParameter "Invalid model name or URL") :=
  ⟨(download_model_validation "not-a-model" [] true []).1 rfl (by decide),
   (download_model_validation "Llama-2-7b-chat" [] true []).2.1
     "https://huggingface.co/mlc-ai/mlc-chat-Llama-2-7b-chat-hf-q4f16_1" rfl
     "Invalid model name or URL",
   (download_model_validation "https://example.com/some-model" [] true []).2.2
     (by decide) "Invalid model name or URL"⟩

theorem aliasesGet_set_self (m : List (String × String)) (k v : String) :
    aliasesGet (aliasesSet m k v) k = some v := by
  simp [aliasesGet, aliasesSet, List.reverse_append]

theorem aliasesGet_set_ne (m : List (String × String)) (k v a : String) (h : a ≠ k) :
    aliasesGet (aliasesSet m k v) a = aliasesGet m a := by
  have hk : (k == a) = false := beq_eq_false_iff_ne.2 (Ne.symm h)
  simp [aliasesGet, aliasesSet, List.reverse_append, List.find?_cons, hk]

theorem aliasesGet_foldl_set (as : List String) (m : List (String × String)) (v a : String)
    (h : a ∈ as ∨ aliasesGet m a = some v) :
    aliasesGet (as.foldl (fun d x => aliasesSet d x v) m) a = some v := by
  induction as generalizing m with
  | nil =>
    rcases h with h | h
    · exact absurd h (List.not_mem_nil a)
    · exact h
  | cons x rest ih =>
    rw [List.foldl_cons]
    by_cases hax : a = x
    · refine ih _ (Or.inr ?_)
      rw [hax]
      exact aliasesGet_set_self m x v
    · rcases h with hmem | hlook
      · rcases List.mem_cons.1 hmem with heq | hmem'
        · exact absurd heq hax
        · exact ih _ (Or.inl hmem')
      · refine ih _ (Or.inr ?_)
        rw [aliasesGet_set_ne m x v a hax]
        exact hlook

/-- C9: after a successful `download_model` invocation the alias file maps
each supplied alias to the installed model directory name (the last
`/`-separated segment of the clone URL), and a recognized short name used as
the argument is additionally registered as an alias of that directory. -/
theorem download_model_aliases (name_or_url : String) (aliases : List String)
    (data newData : List (String × String)) (effs : List Effect)
    (hok : download_model name_or_url aliases true data = (effs, .ok newData)) :
    (∀ a ∈ aliases, aliasesGet newData a =
      some (lastBit (pyOrStr (modelUrlsGet name_or_url) name_or_url))) ∧
    ((modelUrlsGet name_or_url).isSome = true →
      aliasesGet newData name_or_url =
        some (lastBit (pyOrStr (modelUrlsGet name_or_url) name_or_url))) := by
  by_cases hstart :
      pyStartsWith (pyOrStr (modelUrlsGet name_or_url) name_or_url) "https://" = true
  case neg =>
    simp only [download_model] at hok
    rw [if_pos hstart] at hok
    exact absurd (congrArg Prod.snd hok) (by simp)
  case pos =>
    simp only [download_model] at hok
    rw [if_neg (not_not_intro hstart), if_neg (not_not_intro trivial)] at hok
    cases hsome : (modelUrlsGet name_or_url).isSome with
    | true =>
      rw [hsome, if_pos rfl] at hok
      have hne : (aliases ++ [name_or_url]).isEmpty = false := by
        cases aliases <;> rfl
      rw [hne, if_neg Bool.false_ne_true] at hok
      have hnew : (aliases ++ [name_or_url]).foldl
          (fun d a => aliasesSet d a
            (lastBit (pyOrStr (modelUrlsGet name_or_url) name_or_url))) data = newData :=
        Except.ok.inj (congrArg Prod.snd hok)
      constructor
      · intro a ha
        rw [← hnew]
        exact aliasesGet_foldl_set _ _ _ _ (Or.inl (List.mem_append_left _ ha))
      · intro hs
        rw [← hnew]
        exact aliasesGet_foldl_set _ _ _ _
          (Or.inl (List.mem_append_right _ (List.mem_singleton.2 rfl)))
    | false =>
      rw [hsome, if_neg Bool.false_ne_true] at hok
      cases haemp : aliases.isEmpty with
      | true =>
        -- No alias was supplied and the argument is not a recognized short
        -- name: both conclusions are vacuous.
        cases aliases with
        | nil =>
          exact ⟨fun a ha => absurd ha (List.not_mem_nil a),
                 fun hs => absurd hs Bool.false_ne_true⟩
        | cons x rest => simp [List.isEmpty] at haemp
      | false =>
        rw [haemp, if_neg Bool.false_ne_true] at hok
        have hnew : aliases.foldl
            (fun d a => aliasesSet d a
              (lastBit (pyOrStr (modelUrlsGet name_or_url) name_or_url))) data = newData :=
          Except.ok.inj (congrArg Prod.snd hok)
        constructor
        · intro a ha
          rw [← hnew]
          exact aliasesGet_foldl_set _ _ _ _ (Or.inl ha)
        · intro hs
          exact absurd hs Bool.false_ne_true

theorem download_model_aliases_witness :
    (∀ a ∈ ["llama2"],
      aliasesGet [("llama2", "mlc-chat-Llama-2-7b-chat-hf-q4f16_1"),
                  ("Llama-2-7b-chat", "mlc-chat-Llama-2-7b-chat-hf-q4f16_1")] a =
        some (lastBit (pyOrStr (modelUrlsGet "Llama-2-7b-chat") "Llama-2-7b-chat"))) ∧
    ((modelUrlsGet "Llama-2-7b-chat").isSome = true →
      aliasesGet [("llama2", "mlc-chat-Llama-2-7b-chat-hf-q4f16_1"),
                  ("Llama-2-7b-chat", "mlc-chat-Llama-2-7b-chat-hf-q4f16_1")]
          "Llama-2-7b-chat" =
        some (lastBit (pyOrStr (modelUrlsGet "Llama-2-7b-chat") "Llama-2-7b-chat"))) :=
  download_model_aliases "Llama-2-7b-chat" ["llama2"] []
    [("llama2", "mlc-chat-Llama-2-7b-chat-hf-q4f16_1"),
     ("Llama-2-7b-chat", "mlc-chat-Llama-2-7b-chat-hf-q4f16_1")]
    [Effect.gitClone "https://huggingface.co/mlc-ai/mlc-chat-Llama-2-7b-chat-hf-q4f16_1"
       "dist/prebuilt/mlc-chat-Llama-2-7b-chat-hf-q4f16_1",
     Effect.writeAliasesFile
       [("llama2", "mlc-chat-Llama-2-7b-chat-hf-q4f16_1"),
        ("Llama-2-7b-chat", "mlc-chat-Llama-2-7b-chat-hf-q4f16_1")]]
    rfl

/-- C8: each missing prerequisite makes the command fail with its fixed
instructional message and no remediation: a `setup` run without the git-lfs
command fails before any effect; a `setup` run where git-lfs is not
initialised performs exactly the single interactive prompt and fails when
the user declines; a `setup` run where `mlc_chat` does not import fails with
`MLC_INSTALL`; `MlcModel.execute` without `mlc_chat` fails with
`MLC_INSTALL`; and `download_model` without the prebuilt directory fails
with the fixed setup-first message and no clone. -/
theorem missing_prerequisites_fail (env : SetupEnv) (p : Prompt) (opts : Options)
    (conversation : Option Conversation) (name_or_url : String) (aliases : List String)
    (data : List (String × String)) :
    (env.gitLfsCommandAvailable = false →
      setup env = ([], .error (.clickException
        "Git LFS is not installed. You should run 'brew install git-lfs' or similar."))) ∧
    (env.gitLfsCommandAvailable = true → env.gitLfsInstalled = false →
        env.userConfirmsInstall = false →
      setup env = ([Effect.promptInstallLfs], .error (.clickException
        "Git LFS is not installed. You should run 'git lfs install'."))) ∧
    (env.gitLfsCommandAvailable = true → env.gitLfsInstalled = true →
        env.mlcChatImportable = false →
      (setup env).2 = .error (.clickException MLC_INSTALL)) ∧
    (execute false p opts conversation = .error (.clickException MLC_INSTALL)) ∧
    (pyStartsWith (pyOrStr (modelUrlsGet name_or_url) name_or_url) "https://" = true →
      download_model name_or_url aliases false data =
        ([], .error (.clickException "You must run 'llm mlc setup' first"))) := by
  refine ⟨?_, ?_, ?_, ?_, ?_⟩
  · intro h1
    simp [setup, h1]
  · intro h1 h2 h3
    simp [setup, h1, h2, h3]
  · intro h1 h2 h3
    simp [setup, h1, h2, h3]
  · simp [execute]
  · intro hstart
    simp only [download_model]
    rw [if_neg (not_not_intro hstart), if_pos (by simp)]

theorem missing_prerequisites_fail_witness :
    setup ⟨false, false, false, false, false⟩ =
      ([], .error (.clickException
        "Git LFS is not installed. You should run 'brew install git-lfs' or similar.")) ∧
    setup ⟨true, false, false, false, false⟩ =
      ([Effect.promptInstallLfs], .error (.clickException
        "Git LFS is not installed. You should run 'git lfs install'.")) ∧
    (setup ⟨true, true, false, true, false⟩).2 = .error (.clickException MLC_INSTALL) ∧
    execute false ⟨"q", none⟩ ⟨none, none, none, none⟩ none =
      .error (.clickException MLC_INSTALL) ∧
    download_model "https://example.com/some-model" [] false [] =
      ([], .error (.clickException "You must run 'llm mlc setup' first")) :=
  ⟨(missing_prerequisites_fail ⟨false, false, false, false, false⟩ ⟨"q", none⟩
      ⟨none, none, none, none⟩ none "https://example.com/some-model" [] []).1 rfl,
   (missing_prerequisites_fail ⟨true, false, false, false, false⟩ ⟨"q", none⟩
      ⟨none, none, none, none⟩ none "https://example.com/some-model" [] []).2.1
      rfl rfl rfl,
   (missing_prerequisites_fail ⟨true, true, false, true, false⟩ ⟨"q", none⟩
      ⟨none, none, none, none⟩ none "https://example.com/some-model" [] []).2.2.1
      rfl rfl rfl,
   (missing_prerequisites_fail ⟨true, true, false, true, false⟩ ⟨"q", none⟩
      ⟨none, none, none, none⟩ none "https://example.com/some-model" [] []).2.2.2.1,
   (missing_prerequisites_fail ⟨true, true, false, true, false⟩ ⟨"q", none⟩
      ⟨none, none, none, none⟩ none "https://example.com/some-model" [] []).2.2.2.2
      (by decide)⟩

/-! ## Scoped process-global state: `temp_chdir` and `SuppressOutput`
(src/llm_mlc.py lines 337-381) -/

/-- Process state visible to `temp_chdir`: the current working directory
plus an abstract remainder `world` the body may mutate freely. -/
structure ProcState (W : Type) where
  cwd : String
  world : W

/-- Context manager `temp_chdir` (src/llm_mlc.py lines 337-344): save `os.getcwd()`, chdir
to `path`, run the body (which may itself mutate the state and may raise,
signalled by `some` error), and chdir back in the `finally` block. -/
def temp_chdir {W ε : Type} (path : String)
    (body : ProcState W → ProcState W × Option ε) (s : ProcState W) :
    ProcState W × Option ε :=
  let old_dir := s.cwd
  let entered : ProcState W := { s with cwd := path }
  let res := body entered
  ({ res.1 with cwd := old_dir }, res.2)

/-- C7: after `temp_chdir` exits, the working directory equals the one from
before the scope was entered, whether the body completed normally or raised
(the error, if any, propagates unchanged). -/
theorem temp_chdir_restores_cwd {W ε : Type} (path : String)
    (body : ProcState W → ProcState W × Option ε) (s : ProcState W) :
    (temp_chdir path body s).1.cwd = s.cwd ∧
    (temp_chdir path body s).2 = (body { s with cwd := path }).2 := by
  constructor
  · rfl
  · rfl

/-- What a file descriptor refers to: some open file description (numbered
abstractly) or `/dev/null`. -/
inductive FileTarget
  | tgt (id : Nat)
  | devnull
deriving DecidableEq

/-- A Python-level stream object: the original `sys.stdout`/`sys.stderr`
object, or a fresh `os.fdopen(fd, "w")` wrapper. -/
inductive StreamObj
  | obj (id : Nat)
  | fdopen (fd : Nat)
deriving DecidableEq

/-- Process state visible to `SuppressOutput`: the open file-descriptor
table, the `sys.stdout`/`sys.stderr` objects, and an abstract remainder
`world` the wrapped operation may mutate freely. -/
structure FdState (W : Type) where
  fds : List (Nat × FileTarget)
  stdoutObj : StreamObj
  stderrObj : StreamObj
  world : W

/-- Lookup of a file descriptor in the table. -/
def lookupFd : List (Nat × FileTarget) → Nat → Option FileTarget
  | [], _ => none
  | e :: rest, k => if e.1 = k then some e.2 else lookupFd rest k

/-- Call `os.dup2(src, k)` or `os.open`: point descriptor `k` at `v`. -/
def setFd : List (Nat × FileTarget) → Nat → FileTarget → List (Nat × FileTarget)
  | [], k, v => [(k, v)]
  | e :: rest, k, v => if e.1 = k then (k, v) :: rest else e :: setFd rest k v

/-- Call `os.close(k)`: remove descriptor `k` from the table. -/
def closeFd : List (Nat × FileTarget) → Nat → List (Nat × FileTarget)
  | [], _ => []
  | e :: rest, k => if e.1 = k then closeFd rest k else e :: closeFd rest k

/-- A number strictly above every open descriptor, used as the descriptor
returned by `os.dup`/`os.open` (any unused number would do). -/
def freshFd (tbl : List (Nat × FileTarget)) : Nat :=
  (tbl.map (fun e => e.1)).foldr max 0 + 1

/-- The descriptors `SuppressOutput.__enter__` stores on `self`. -/
structure SavedStreams where
  stdout_fd : Nat
  stderr_fd : Nat
  devnull_fd : Nat
  original_stdout : StreamObj
  original_stderr : StreamObj

/-- Method `SuppressOutput.__enter__` (src/llm_mlc.py lines 348-364): duplicate
descriptors 1 and 2, open `/dev/null`, point 1 and 2 at it, and repoint
`sys.stdout`/`sys.stderr` at the duplicates.  Returns `none` when
descriptor 1 or 2 is not open (`os.dup` would raise). -/
def suppressEnter {W : Type} (s : FdState W) : Option (FdState W × SavedStreams) :=
  match lookupFd s.fds 1, lookupFd s.fds 2 with
  | some t1, some t2 =>
    let stdout_fd := freshFd s.fds
    let fds1 := s.fds ++ [(stdout_fd, t1)]
    let stderr_fd := freshFd fds1
    let fds2 := fds1 ++ [(stderr_fd, t2)]
    let devnull_fd := freshFd fds2
    let fds3 := fds2 ++ [(devnull_fd, FileTarget.devnull)]
    let fds4 := setFd (setFd fds3 1 FileTarget.devnull) 2 FileTarget.devnull
    some ({ fds := fds4,
            stdoutObj := StreamObj.fdopen stdout_fd,
            stderrObj := StreamObj.fdopen stderr_fd,
            world := s.world },
          { stdout_fd := stdout_fd, stderr_fd := stderr_fd, devnull_fd := devnull_fd,
            original_stdout := s.stdoutObj, original_stderr := s.stderrObj })
  | _, _ => none

/-- Method `SuppressOutput.__exit__` (src/llm_mlc.py lines 366-380): point 1 and 2
back at the saved duplicates, close the duplicates and the `/dev/null`
descriptor, and restore `sys.stdout`/`sys.stderr`. -/
def suppressExit {W : Type} (saved : SavedStreams) (s : FdState W) : FdState W :=
  let fds1 := match lookupFd s.fds saved.stdout_fd with
              | some t => setFd s.fds 1 t
              | none => s.fds
  let fds2 := match lookupFd fds1 saved.stderr_fd with
              | some t => setFd fds1 2 t
              | none => fds1
  let fds3 := closeFd (closeFd (closeFd fds2 saved.stdout_fd) saved.stderr_fd)
                saved.devnull_fd
  { fds := fds3,
    stdoutObj := saved.original_stdout,
    stderrObj := saved.original_stderr,
    world := s.world }

/-- Events observable from the suppression scope. -/
inductive SupEvent
  | redirected
  | restored
deriving DecidableEq

/-- Statement `with SuppressOutput(): body` (used at src/llm_mlc.py line 284):
`__enter__`, then the wrapped operation (which touches only `world` and may
raise, signalled by `some` error), then `__exit__` — run exactly once in
both the normal and the raising case, after which the error propagates. -/
def withSuppressOutput {W ε : Type} (body : W → W × Option ε) (s : FdState W) :
    Option (FdState W × List SupEvent × Option ε) :=
  match suppressEnter s with
  | none => none
  | some (s1, saved) =>
    let res := body s1.world
    let s2 : FdState W := { s1 with world := res.1 }
    some (suppressExit saved s2, [SupEvent.redirected, SupEvent.restored], res.2)

theorem lookupFd_singleton (k : Nat) (v : FileTarget) :
    lookupFd [(k, v)] k = some v := by
  simp [lookupFd]

theorem lookupFd_append_some (l1 l2 : List (Nat × FileTarget)) (k : Nat) (v : FileTarget)
    (h : lookupFd l1 k = some v) : lookupFd (l1 ++ l2) k = some v := by
  induction l1 with
  | nil => simp [lookupFd] at h
  | cons e rest ih =>
    by_cases he : e.1 = k
    · simp [lookupFd, he] at h ⊢
      exact h
    · simp only [lookupFd, he, if_false, List.cons_append, if_neg he] at h ⊢
      exact ih h

theorem lookupFd_append_none (l1 l2 : List (Nat × FileTarget)) (k : Nat)
    (h : lookupFd l1 k = none) : lookupFd (l1 ++ l2) k = lookupFd l2 k := by
  induction l1 with
  | nil => rfl
  | cons e rest ih =>
    by_cases he : e.1 = k
    · simp [lookupFd, he] at h
    · simp only [lookupFd, List.cons_append, if_neg he] at h ⊢
      exact ih h

theorem lookupFd_setFd_self (tbl : List (Nat × FileTarget)) (k : Nat) (v : FileTarget) :
    lookupFd (setFd tbl k v) k = some v := by
  induction tbl with
  | nil => simp [setFd, lookupFd]
  | cons e rest ih =>
    by_cases he : e.1 = k
    · simp [setFd, he, lookupFd]
    · simp [setFd, he, lookupFd, ih]

theorem lookupFd_setFd_ne (tbl : List (Nat × FileTarget)) (k k' : Nat) (v : FileTarget)
    (h : k' ≠ k) : lookupFd (setFd tbl k v) k' = lookupFd tbl k' := by
  induction tbl with
  | nil => simp [setFd, lookupFd, Ne.symm h]
  | cons e rest ih =>
    by_cases he : e.1 = k
    · simp [setFd, he, lookupFd, Ne.symm h]
    · simp only [setFd, if_neg he, lookupFd]
      by_cases hp : e.1 = k'
      · simp [hp]
      · simp [hp, ih]

theorem lookupFd_closeFd_ne (tbl : List (Nat × FileTarget)) (k k' : Nat)
    (h : k' ≠ k) : lookupFd (closeFd tbl k) k' = lookupFd tbl k' := by
  induction tbl with
  | nil => rfl
  | cons e rest ih =>
    by_cases he : e.1 = k
    · have hp : e.1 ≠ k' := by rw [he]; exact Ne.symm h
      simp [closeFd, he, lookupFd, hp, ih, Ne.symm h]
    · simp only [closeFd, if_neg he, lookupFd]
      by_cases hp : e.1 = k'
      · simp [hp]
      · simp [hp, ih]

theorem le_foldr_max (l : List Nat) (k : Nat) (h : k ∈ l) : k ≤ l.foldr max 0 := by
  induction l with
  | nil => cases h
  | cons x rest ih =>
    rcases List.mem_cons.1 h with h1 | h1
    · rw [h1, List.foldr_cons]
      exact le_max_left _ _
    · exact le_trans (ih h1) (le_max_right _ _)

theorem lookupFd_some_mem_keys (tbl : List (Nat × FileTarget)) (k : Nat) (v : FileTarget)
    (h : lookupFd tbl k = some v) : k ∈ tbl.map (fun e => e.1) := by
  induction tbl with
  | nil => simp [lookupFd] at h
  | cons e rest ih =>
    by_cases he : e.1 = k
    · simp [he]
    · simp only [lookupFd, if_neg he] at h
      simp [ih h]

theorem lookupFd_some_lt_freshFd (tbl : List (Nat × FileTarget)) (k : Nat) (v : FileTarget)
    (h : lookupFd tbl k = some v) : k < freshFd tbl := by
  have hk := lookupFd_some_mem_keys tbl k v h
  have hle := le_foldr_max _ _ hk
  unfold freshFd
  omega

theorem lookupFd_freshFd_none (tbl : List (Nat × FileTarget)) :
    lookupFd tbl (freshFd tbl) = none := by
  cases hl : lookupFd tbl (freshFd tbl) with
  | none => rfl
  | some v =>
    exfalso
    have := lookupFd_some_lt_freshFd tbl (freshFd tbl) v hl
    omega

theorem suppressExit_lookup_one {W : Type} (s2 : FdState W) (a b c : Nat)
    (o1 o2 : StreamObj) (t1 t2 : FileTarget)
    (ha : lookupFd s2.fds a = some t1)
    (hb : lookupFd (setFd s2.fds 1 t1) b = some t2)
    (h1a : (1 : Nat) ≠ a) (h1b : (1 : Nat) ≠ b) (h1c : (1 : Nat) ≠ c) :
    lookupFd (suppressExit ⟨a, b, c, o1, o2⟩ s2).fds 1 = some t1 := by
  simp only [suppressExit]
  rw [ha]
  dsimp only
  rw [hb]
  dsimp only
  rw [lookupFd_closeFd_ne _ _ _ h1c, lookupFd_closeFd_ne _ _ _ h1b,
    lookupFd_closeFd_ne _ _ _ h1a,
    lookupFd_setFd_ne _ _ _ _ (show (1 : Nat) ≠ 2 by decide),
    lookupFd_setFd_self]

theorem suppressExit_lookup_two {W : Type} (s2 : FdState W) (a b c : Nat)
    (o1 o2 : StreamObj) (t1 t2 : FileTarget)
    (ha : lookupFd s2.fds a = some t1)
    (hb : lookupFd (setFd s2.fds 1 t1) b = some t2)
    (h2a : (2 : Nat) ≠ a) (h2b : (2 : Nat) ≠ b) (h2c : (2 : Nat) ≠ c) :
    lookupFd (suppressExit ⟨a, b, c, o1, o2⟩ s2).fds 2 = some t2 := by
  simp only [suppressExit]
  rw [ha]
  dsimp only
  rw [hb]
  dsimp only
  rw [lookupFd_closeFd_ne _ _ _ h2c, lookupFd_closeFd_ne _ _ _ h2b,
    lookupFd_closeFd_ne _ _ _ h2a, lookupFd_setFd_self]

/-- C6: the suppression scope restores the prior output streams exactly
once per call — file descriptors 1 and 2 point back at their previous
targets and `sys.stdout`/`sys.stderr` are the previous objects — whether
the wrapped operation completes normally or raises (the error, if any,
propagates unchanged). -/
theorem suppress_output_restores {W ε : Type} (body : W → W × Option ε)
    (s : FdState W) (t1 t2 : FileTarget)
    (h1 : lookupFd s.fds 1 = some t1) (h2 : lookupFd s.fds 2 = some t2) :
    ∃ s' : FdState W,
      withSuppressOutput body s =
        some (s', [SupEvent.redirected, SupEvent.restored], (body s.world).2) ∧
      List.count SupEvent.restored [SupEvent.redirected, SupEvent.restored] = 1 ∧
      lookupFd s'.fds 1 = some t1 ∧
      lookupFd s'.fds 2 = some t2 ∧
      s'.stdoutObj = s.stdoutObj ∧
      s'.stderrObj = s.stderrObj ∧
      s'.world = (body s.world).1 := by
  simp only [withSuppressOutput, suppressEnter, h1, h2]
  have hA1lt : 1 < freshFd s.fds := lookupFd_some_lt_freshFd s.fds 1 t1 h1
  have hA2lt : 2 < freshFd s.fds := lookupFd_some_lt_freshFd s.fds 2 t2 h2
  have hF1_1 : lookupFd (s.fds ++ [(freshFd s.fds, t1)]) 1 = some t1 :=
    lookupFd_append_some _ _ _ _ h1
  have hF1_2 : lookupFd (s.fds ++ [(freshFd s.fds, t1)]) 2 = some t2 :=
    lookupFd_append_some _ _ _ _ h2
  have hF1_A : lookupFd (s.fds ++ [(freshFd s.fds, t1)]) (freshFd s.fds) = some t1 := by
    rw [lookupFd_append_none _ _ _ (lookupFd_freshFd_none s.fds)]
    exact lookupFd_singleton _ _
  have hB1lt : 1 < freshFd (s.fds ++ [(freshFd s.fds, t1)]) :=
    lookupFd_some_lt_freshFd _ 1 t1 hF1_1
  have hB2lt : 2 < freshFd (s.fds ++ [(freshFd s.fds, t1)]) :=
    lookupFd_some_lt_freshFd _ 2 t2 hF1_2
  have hF2_1 : lookupFd (s.fds ++ [(freshFd s.fds, t1)] ++
      [(freshFd (s.fds ++ [(freshFd s.fds, t1)]), t2)]) 1 = some t1 :=
    lookupFd_append_some _ _ _ _ hF1_1
  have hF2_2 : lookupFd (s.fds ++ [(freshFd s.fds, t1)] ++
      [(freshFd (s.fds ++ [(freshFd s.fds, t1)]), t2)]) 2 = some t2 :=
    lookupFd_append_some _ _ _ _ hF1_2
  have hF2_A : lookupFd (s.fds ++ [(freshFd s.fds, t1)] ++
      [(freshFd (s.fds ++ [(freshFd s.fds, t1)]), t2)]) (freshFd s.fds) = some t1 :=
    lookupFd_append_some _ _ _ _ hF1_A
  have hF2_B : lookupFd (s.fds ++ [(freshFd s.fds, t1)] ++
      [(freshFd (s.fds ++ [(freshFd s.fds, t1)]), t2)])
      (freshFd (s.fds ++ [(freshFd s.fds, t1)])) = some t2 := by
    rw [lookupFd_append_none _ _ _ (lookupFd_freshFd_none _)]
    exact lookupFd_singleton _ _
  have hC1lt : 1 < freshFd (s.fds ++ [(freshFd s.fds, t1)] ++
      [(freshFd (s.fds ++ [(freshFd s.fds, t1)]), t2)]) :=
    lookupFd_some_lt_freshFd _ 1 t1 hF2_1
  have hC2lt : 2 < freshFd (s.fds ++ [(freshFd s.fds, t1)] ++
      [(freshFd (s.fds ++ [(freshFd s.fds, t1)]), t2)]) :=
    lookupFd_some_lt_freshFd _ 2 t2 hF2_2
  have hF3_A : lookupFd (s.fds ++ [(freshFd s.fds, t1)] ++
      [(freshFd (s.fds ++ [(freshFd s.fds, t1)]), t2)] ++
      [(freshFd (s.fds ++ [(freshFd s.fds, t1)] ++
        [(freshFd (s.fds ++ [(freshFd s.fds, t1)]), t2)]), FileTarget.devnull)])
      (freshFd s.fds) = some t1 :=
    lookupFd_append_some _ _ _ _ hF2_A
  have hF3_B : lookupFd (s.fds ++ [(freshFd s.fds, t1)] ++
      [(freshFd (s.fds ++ [(freshFd s.fds, t1)]), t2)] ++
      [(freshFd (s.fds ++ [(freshFd s.fds, t1)] ++
        [(freshFd (s.fds ++ [(freshFd s.fds, t1)]), t2)]), FileTarget.devnull)])
      (freshFd (s.fds ++ [(freshFd s.fds, t1)])) = some t2 :=
    lookupFd_append_some _ _ _ _ hF2_B
  have hF4_A : lookupFd (setFd (setFd (s.fds ++ [(freshFd s.fds, t1)] ++
      [(freshFd (s.fds ++ [(freshFd s.fds, t1)]), t2)] ++
      [(freshFd (s.fds ++ [(freshFd s.fds, t1)] ++
        [(freshFd (s.fds ++ [(freshFd s.fds, t1)]), t2)]), FileTarget.devnull)])
      1 FileTarget.devnull) 2 FileTarget.devnull) (freshFd s.fds) = some t1 := by
    rw [lookupFd_setFd_ne _ _ _ _ (ne_of_gt hA2lt),
      lookupFd_setFd_ne _ _ _ _ (ne_of_gt hA1lt)]
    exact hF3_A
  have hF4_B : lookupFd (setFd (setFd (setFd (s.fds ++ [(freshFd s.fds, t1)] ++
      [(freshFd (s.fds ++ [(freshFd s.fds, t1)]), t2)] ++
      [(freshFd (s.fds ++ [(freshFd s.fds, t1)] ++
        [(freshFd (s.fds ++ [(freshFd s.fds, t1)]), t2)]), FileTarget.devnull)])
      1 FileTarget.devnull) 2 FileTarget.devnull) 1 t1)
      (freshFd (s.fds ++ [(freshFd s.fds, t1)])) = some t2 := by
    rw [lookupFd_setFd_ne _ _ _ _ (ne_of_gt hB1lt),
      lookupFd_setFd_ne _ _ _ _ (ne_of_gt hB2lt),
      lookupFd_setFd_ne _ _ _ _ (ne_of_gt hB1lt)]
    exact hF3_B
  refine ⟨_, rfl, rfl, ?_, ?_, rfl, rfl, rfl⟩
  · exact suppressExit_lookup_one _ _ _ _ _ _ _ _ hF4_A hF4_B
      (ne_of_lt hA1lt) (ne_of_lt hB1lt) (ne_of_lt hC1lt)
  · exact suppressExit_lookup_two _ _ _ _ _ _ _ _ hF4_A hF4_B
      (ne_of_lt hA2lt) (ne_of_lt hB2lt) (ne_of_lt hC2lt)

/-- A concrete wrapped operation for exercising the suppression scope: it
mutates the world and raises. -/
def c6Body : Nat → Nat × Option Unit := fun w => (w + 1, some ())

/-- A concrete process state with open descriptors 0, 1 and 2. -/
def c6State : FdState Nat :=
  { fds := [(0, FileTarget.tgt 0), (1, FileTarget.tgt 1), (2, FileTarget.tgt 2)],
    stdoutObj := StreamObj.obj 10,
    stderrObj := StreamObj.obj 20,
    world := 0 }

theorem suppress_output_restores_witness :
    ∃ s' : FdState Nat,
      withSuppressOutput c6Body c6State =
        some (s', [SupEvent.redirected, SupEvent.restored], (c6Body c6State.world).2) ∧
      List.count SupEvent.restored [SupEvent.redirected, SupEvent.restored] = 1 ∧
      lookupFd s'.fds 1 = some (FileTarget.tgt 1) ∧
      lookupFd s'.fds 2 = some (FileTarget.tgt 2) ∧
      s'.stdoutObj = c6State.stdoutObj ∧
      s'.stderrObj = c6State.stderrObj ∧
      s'.world = (c6Body c6State.world).1 :=
  suppress_output_restores c6Body c6State (FileTarget.tgt 1) (FileTarget.tgt 2) rfl rfl

end LlmMlc
